import Mathlib

/-!
Shallow embedding of `src/target/stm32h7.c` from the Black Magic Debug
project (STM32H7 target driver).  Hardware interaction is modelled
explicitly: successive values returned by `target_mem_read32` on a bank's
status register become a list of readings, results of fallible sub-steps
become boolean parameters, and the register writes a routine performs are
returned as an explicit trace of `(address, value)` pairs.  All machine
integers are `Nat`; the driver never relies on 32-bit wraparound in the
code paths modelled here.
-/

namespace Stm32h7

/-! ### Register map and bit constants (lines 61-151 of the source) -/

def FLASH_ACR : Nat := 0x00
def FLASH_KEYR : Nat := 0x04
def FLASH_CR : Nat := 0x0c
def FLASH_SR : Nat := 0x10
def FLASH_CCR : Nat := 0x14
def FLASH_CRCCR : Nat := 0x50
def FLASH_CRCDATA : Nat := 0x5C

def FPEC1_BASE : Nat := 0x52002000
def FPEC2_BASE : Nat := 0x52002100

def FLASH_SR_BSY : Nat := 1 <<< 0
def FLASH_SR_WBNE : Nat := 1 <<< 1
def FLASH_SR_QW : Nat := 1 <<< 2
def FLASH_SR_CRC_BUSY : Nat := 1 <<< 3
def FLASH_SR_EOP : Nat := 1 <<< 16
def FLASH_SR_WRPERR : Nat := 1 <<< 17
def FLASH_SR_PGSERR : Nat := 1 <<< 18
def FLASH_SR_STRBERR : Nat := 1 <<< 19
def FLASH_SR_INCERR : Nat := 1 <<< 21
def FLASH_SR_OPERR : Nat := 1 <<< 22
def FLASH_SR_RDPERR : Nat := 1 <<< 23
def FLASH_SR_RDSERR : Nat := 1 <<< 24
def FLASH_SR_SNECCERR : Nat := 1 <<< 25
def FLASH_SR_DBERRERR : Nat := 1 <<< 26

def FLASH_SR_ERROR_READ : Nat :=
  FLASH_SR_RDPERR ||| FLASH_SR_RDSERR ||| FLASH_SR_SNECCERR ||| FLASH_SR_DBERRERR

def FLASH_SR_ERROR_MASK : Nat :=
  FLASH_SR_WRPERR ||| FLASH_SR_PGSERR ||| FLASH_SR_STRBERR |||
  FLASH_SR_INCERR ||| FLASH_SR_OPERR ||| FLASH_SR_ERROR_READ

def FLASH_CR_LOCK : Nat := 1 <<< 0
def FLASH_CR_PG : Nat := 1 <<< 1
def FLASH_CR_SER : Nat := 1 <<< 2
def FLASH_CR_BER : Nat := 1 <<< 3
def FLASH_CR_PSIZE16 : Nat := 1 <<< 4
def FLASH_CR_START : Nat := 1 <<< 7
def FLASH_CR_SNB_1 : Nat := 1 <<< 8
def FLASH_CR_CRC_EN : Nat := 1 <<< 15

def FLASH_CRCCR_ALL_BANK : Nat := 1 <<< 7
def FLASH_CRCCR_START_CRC : Nat := 1 <<< 16
def FLASH_CRCCR_CLEAN_CRC : Nat := 1 <<< 17
def FLASH_CRCCR_CRC_BURST_3 : Nat := 3 <<< 20

def DBGMCU_IDCODE : Nat := 0x5c001000
def DBGMCU_CR : Nat := DBGMCU_IDCODE + 4
def DBGSLEEP_D1 : Nat := 1 <<< 0
def D1DBGCKEN : Nat := 1 <<< 21

def BANK1_START : Nat := 0x08000000
def NUM_SECTOR_PER_BANK : Nat := 8
def FLASH_SECTOR_SIZE : Nat := 0x20000
def BANK2_START : Nat := 0x08100000

def ID_STM32H74x : Nat := 0x4500
def ID_STM32H7Bx : Nat := 0x4800
def ID_STM32H72x : Nat := 0x4830

/-- The `enum align` values of the surrounding project, as used by this
driver: `psize * FLASH_CR_PSIZE16` must yield PSIZE8/16/32/64, so
BYTE = 0, HALFWORD = 1, WORD = 2, DWORD = 3. -/
def ALIGN_BYTE : Nat := 0
def ALIGN_HALFWORD : Nat := 1
def ALIGN_WORD : Nat := 2
def ALIGN_DWORD : Nat := 3

/-- The spec's set of *busy indicators*: busy, write-buffer-not-empty,
queued-write-pending and crc-busy.  This definition follows the spec's
words, for comparison against what the code's busy wait actually tests. -/
def specBusyIndicators : Nat :=
  FLASH_SR_BSY ||| FLASH_SR_WBNE ||| FLASH_SR_QW ||| FLASH_SR_CRC_BUSY

/-! ### `stm32h7_flash_busy_wait` (source lines 246-259)

The routine repeatedly reads the bank's status register and calls
`target_check_error`.  We model one loop iteration by a pair
`(sr, commErr)`: the status value read, and the result of
`target_check_error` for that iteration.  The list supplies successive
iterations; running off its end means the loop kept spinning. -/

inductive BusyWaitResult where
  /-- loop exited normally; `sr` is the status value observed last -/
  | success (sr : Nat)
  /-- error path taken: a single write `val` to address `addr`
      (the bank's FLASH_CCR) was performed, then `false` returned -/
  | failure (addr : Nat) (val : Nat)
  /-- the supplied readings were exhausted while still busy -/
  | stuck
deriving DecidableEq

def stm32h7_flash_busy_wait (regbase : Nat) :
    List (Nat × Bool) → BusyWaitResult
  | [] => .stuck
  | (sr, commErr) :: rest =>
    if sr &&& FLASH_SR_ERROR_MASK ≠ 0 ∨ commErr then
      .failure (regbase + FLASH_CCR) (sr &&& FLASH_SR_ERROR_MASK)
    else if sr &&& (FLASH_SR_BSY ||| FLASH_SR_QW) ≠ 0 then
      stm32h7_flash_busy_wait regbase rest
    else
      .success sr

/-- Iterations on which the busy-wait loop keeps spinning: no error bit,
no communication error, and BSY or QW still set. -/
def busyContinues (p : Nat × Bool) : Prop :=
  p.1 &&& FLASH_SR_ERROR_MASK = 0 ∧ p.2 = false ∧
  p.1 &&& (FLASH_SR_BSY ||| FLASH_SR_QW) ≠ 0

instance (p : Nat × Bool) : Decidable (busyContinues p) := by
  unfold busyContinues; infer_instance

/-! ### `stm32h7_flash_erase` (source lines 278-306)

`stm32h7_flash_unlock` is a fallible sub-step whose outcome we take as a
boolean parameter; the busy wait at the end of each sector's erase is
summarised per sector by `waitOk`.  The routine's register writes are
collected: one `FLASH_ACR := 0` write, then per attempted sector the
arming write of the control value and the triggering write of the same
value with `FLASH_CR_START` set. -/

/-- The two control-register writes issued for one sector: arm
(`psize*PSIZE16 | SER | sector*SNB_1`), then trigger (same with START). -/
def sectorEraseWrites (regbase psize s : Nat) : List (Nat × Nat) :=
  let ctrl_reg := psize * FLASH_CR_PSIZE16 ||| FLASH_CR_SER ||| s * FLASH_CR_SNB_1
  [(regbase + FLASH_CR, ctrl_reg), (regbase + FLASH_CR, ctrl_reg ||| FLASH_CR_START)]

/-- The `while (start_sector <= end_sector)` loop, with the iteration
count `end_sector + 1 - start_sector` made explicit as fuel. -/
def eraseSectorLoop (regbase psize : Nat) (waitOk : Nat → Bool) :
    Nat → Nat → Bool × List (Nat × Nat)
  | _, 0 => (true, [])
  | s, Nat.succ n =>
    if waitOk s then
      let r := eraseSectorLoop regbase psize waitOk (s + 1) n
      (r.1, sectorEraseWrites regbase psize s ++ r.2)
    else
      (false, sectorEraseWrites regbase psize s)

/-- `stm32h7_flash_erase`.  For `len = 0` the C code underflows a
`size_t`; the claims only concern `len ≥ 1`, where `addr + len - 1`
never underflows and plain `Nat` subtraction agrees with the source. -/
def stm32h7_flash_erase (regbase psize : Nat) (unlockOk : Bool)
    (waitOk : Nat → Bool) (addr len : Nat) : Bool × List (Nat × Nat) :=
  if !unlockOk then (false, [])
  else
    let a := addr &&& (NUM_SECTOR_PER_BANK * FLASH_SECTOR_SIZE - 1)
    let start_sector := a / FLASH_SECTOR_SIZE
    let end_sector := (a + len - 1) / FLASH_SECTOR_SIZE
    let r := eraseSectorLoop regbase psize waitOk start_sector
      (end_sector + 1 - start_sector)
    (r.1, (regbase + FLASH_ACR, 0) :: r.2)

/-! ### `stm32h7_flash_write` (source lines 308-330)

Unlock is again a boolean parameter; the post-write busy wait consumes a
list of status readings.  The target-memory data write itself is not a
register write and is not part of the collected trace.  `none` models the
loop spinning past the supplied readings. -/

def stm32h7_flash_write (regbase psize : Nat) (unlockOk : Bool)
    (reads : List (Nat × Bool)) : Option (Bool × List (Nat × Nat)) :=
  if !unlockOk then some (false, [])
  else
    let cr := psize * FLASH_CR_PSIZE16
    let ws := [(regbase + FLASH_CR, cr), (regbase + FLASH_CR, cr ||| FLASH_CR_PG)]
    match stm32h7_flash_busy_wait regbase reads with
    | .failure a v => some (false, ws ++ [(a, v)])
    | .success _ => some (true, ws ++ [(regbase + FLASH_CR, 0)])
    | .stuck => none

/-! ### `stm32h7_mass_erase` and its helpers (source lines 332-388) -/

/-- `stm32h7_erase_bank`: unlock (boolean parameter), then a single
control-register write merging BER and START. -/
def stm32h7_erase_bank (unlockOk : Bool) (psize regbase : Nat) :
    Bool × List (Nat × Nat) :=
  if !unlockOk then (false, [])
  else
    (true, [(regbase + FLASH_CR,
      psize * FLASH_CR_PSIZE16 ||| FLASH_CR_BER ||| FLASH_CR_START)])

/-- `stm32h7_check_bank`: read the status register (value supplied) and
succeed exactly when no error bits are latched. -/
def stm32h7_check_bank (status : Nat) : Bool :=
  status &&& FLASH_SR_ERROR_MASK == 0

/-- The phases of `stm32h7_mass_erase` that actually execute, in order. -/
inductive MassErasePhase where
  | eraseBank1
  | eraseBank2
  | waitBank1
  | waitBank2
  | checkBank1
  | checkBank2
deriving DecidableEq

/-- `stm32h7_mass_erase`.  The first guard transcribes source lines
375-377 exactly: `!erase_bank(bank1) || erase_bank(bank2)`, where the
second disjunct tests the bank-2 result *without* negation, so with C
short-circuit evaluation the wait phase is reached only when bank 1
issues successfully and bank 2 does not.  `unlock1`/`unlock2` are the
two banks' unlock outcomes, `wait1`/`wait2` the two
`stm32h7_wait_erase_bank` outcomes, `sr1`/`sr2` the status values the
two final `stm32h7_check_bank` calls read. -/
def stm32h7_mass_erase (psize : Nat) (unlock1 unlock2 wait1 wait2 : Bool)
    (sr1 sr2 : Nat) : Bool × List MassErasePhase :=
  if !(stm32h7_erase_bank unlock1 psize FPEC1_BASE).1 then
    (false, [.eraseBank1])
  else if (stm32h7_erase_bank unlock2 psize FPEC2_BASE).1 then
    (false, [.eraseBank1, .eraseBank2])
  else if !wait1 then
    (false, [.eraseBank1, .eraseBank2, .waitBank1])
  else if !wait2 then
    (false, [.eraseBank1, .eraseBank2, .waitBank1, .waitBank2])
  else if !(stm32h7_check_bank sr1) then
    (false, [.eraseBank1, .eraseBank2, .waitBank1, .waitBank2, .checkBank1])
  else
    (stm32h7_check_bank sr2,
     [.eraseBank1, .eraseBank2, .waitBank1, .waitBank2, .checkBank1, .checkBank2])

/-! ### `stm32h7_crc` (source lines 415-456)

`stm32h7_crc_bank` is a fallible sub-step (unlock, CRC start, poll); only
its success or failure matters here, so it is a boolean parameter.  The
two digest reads of `stm32h7_crc` are modelled against an explicit memory
`mem`.  Source line 451 reads bank 1's digest from
`FPEC1_BASE + FLASH_CRCDATA`; source line 453 reads bank 2's digest
*also* from `FPEC1_BASE + FLASH_CRCDATA`. -/

def stm32h7_crc (mem : Nat → Nat) (bank1ok bank2ok : Bool) :
    Option (Nat × Nat) :=
  if !bank1ok then none
  else
    let crc1 := mem (FPEC1_BASE + FLASH_CRCDATA)
    if !bank2ok then none
    else
      let crc2 := mem (FPEC1_BASE + FLASH_CRCDATA)
      some (crc1, crc2)

/-- A memory in which the two controllers' digest registers hold
distinct values, to separate the two read addresses. -/
def crcTestMem : Nat → Nat := fun a =>
  if a = FPEC1_BASE + FLASH_CRCDATA then 0x11111111
  else if a = FPEC2_BASE + FLASH_CRCDATA then 0x22222222
  else 0

/-! ### `stm32h7_probe` and `stm32h7_detach` (source lines 216-244)

`stm32h7_probe` reads `DBGMCU_CR` (value supplied as
`dbgmcu_cr_initial`), stores it in the private storage, then writes
`DBGSLEEP_D1 | D1DBGCKEN` to `DBGMCU_CR`.  `stm32h7_detach` writes the
stored value back.  Returned write traces are `(address, value)` pairs. -/

structure stm32h7_priv_s where
  dbg_cr : Nat
deriving DecidableEq

def stm32h7_probe (part_id : Nat) (dbgmcu_cr_initial : Nat) :
    Option (stm32h7_priv_s × List (Nat × Nat)) :=
  if part_id = ID_STM32H74x ∨ part_id = ID_STM32H7Bx ∨ part_id = ID_STM32H72x then
    some (⟨dbgmcu_cr_initial⟩, [(DBGMCU_CR, DBGSLEEP_D1 ||| D1DBGCKEN)])
  else none

def stm32h7_detach (ps : stm32h7_priv_s) : Nat × Nat :=
  (DBGMCU_CR, ps.dbg_cr)

/-! ### Revision lookup (source lines 495-528) -/

def stm32h7xx_revisions : List (Nat × Char) :=
  [(0x1000, 'A'), (0x1001, 'Z'), (0x1003, 'Y'), (0x2001, 'X'), (0x2003, 'V')]

/-- The lookup loop of `stm32h7_cmd_rev`: start from the default
revision letter and overwrite it on every exact table match. -/
def stm32h7_resolve_revision (rev_id : Nat) : Char :=
  stm32h7xx_revisions.foldl
    (fun rev e => if e.1 = rev_id then e.2 else rev) '?'

/-! ### `stm32h7_cmd_psize` (source lines 457-493)

The target's flash list is modelled by the list of the `psize` fields of
its `stm32h7_flash` structures (every flash of this driver is updated by
the loop).  The result triple is (command result, new psize list, usage
message printed). -/

def stm32h7_parse_psize (arg : String) : Option Nat :=
  if arg = "x8" then some ALIGN_BYTE
  else if arg = "x16" then some ALIGN_HALFWORD
  else if arg = "x32" then some ALIGN_WORD
  else if arg = "x64" then some ALIGN_DWORD
  else none

def stm32h7_cmd_psize (argc : Nat) (arg1 : String) (psizes : List Nat) :
    Bool × List Nat × Bool :=
  if argc = 1 then (true, psizes, false)
  else
    match stm32h7_parse_psize arg1 with
    | none => (false, psizes, true)
    | some p => (true, psizes.map (fun _ => p), false)

/-! ### `stm32h7_attach` and `stm32h7_add_flash` (source lines 163-214) -/

/-- One registered flash region: start, length, blocksize, writesize,
erased byte, controller base (fields in the order the source sets
them). -/
structure FlashRegion where
  start : Nat
  length : Nat
  blocksize : Nat
  writesize : Nat
  erased : Nat
  regbase : Nat
deriving DecidableEq

def stm32h7_add_flash (addr length blocksize : Nat) : FlashRegion :=
  ⟨addr, length, blocksize, 2048, 0xff,
    if BANK2_START ≤ addr then FPEC2_BASE else FPEC1_BASE⟩

set_option linter.unusedVariables false in
/-- `stm32h7_attach`: after `cortexm_attach` succeeds, a fixed memory
map is registered — seven RAM regions `(start, length)` and the two
flash banks.  The function never consults `part_id`; the parameter is
present to state that the map does not vary with it. -/
def stm32h7_attach (part_id : Nat) (cortexm_ok : Bool) :
    Option (List (Nat × Nat) × List FlashRegion) :=
  if !cortexm_ok then none
  else
    some
      ([(0x00000000, 0x10000), (0x20000000, 0x20000), (0x24000000, 0x80000),
        (0x30000000, 0x20000), (0x30020000, 0x20000), (0x30040000, 0x08000),
        (0x38000000, 0x10000)],
       [stm32h7_add_flash 0x8000000 0x100000 FLASH_SECTOR_SIZE,
        stm32h7_add_flash 0x8100000 0x100000 FLASH_SECTOR_SIZE])

end Stm32h7

namespace Stm32h7

theorem busy_wait_success_iff (regbase : Nat) (reads : List (Nat × Bool))
    (sr : Nat) (h : stm32h7_flash_busy_wait regbase reads = .success sr) :
    sr &&& FLASH_SR_ERROR_MASK = 0 ∧ sr &&& (FLASH_SR_BSY ||| FLASH_SR_QW) = 0 := by
  induction reads with
  | nil => simp [stm32h7_flash_busy_wait] at h
  | cons hd tl ih =>
    obtain ⟨s, c⟩ := hd
    unfold stm32h7_flash_busy_wait at h
    by_cases he : s &&& FLASH_SR_ERROR_MASK ≠ 0 ∨ c
    · simp [he] at h
    · simp [he] at h
      by_cases hb : s &&& (FLASH_SR_BSY ||| FLASH_SR_QW) = 0
      · rw [if_pos hb] at h
        cases h with
        | refl =>
          push_neg at he
          exact ⟨he.1, hb⟩
      · rw [if_neg hb] at h
        exact ih h

/-- C1: the claim states that whenever unlock and the bank-erase command
issuance succeed on both controller bases, `stm32h7_mass_erase` proceeds
to the wait phase on both banks and reports success iff both status
registers are error-free.  The code does the opposite: with both banks
issuing successfully (`unlock1 = unlock2 = true`) and both status
registers clean (`sr1 = sr2 = 0`), it returns `false` immediately after
the two issuance phases and never reaches either wait phase, because the
guard at source lines 375-376 tests the bank-2 issuance result without
negation. -/
theorem mass_erase_early_false_when_both_banks_issue :
    stm32h7_mass_erase ALIGN_DWORD true true true true 0 0 =
      (false, [.eraseBank1, .eraseBank2]) := by
  decide

/-- C2: the claim states that after the bank-2 CRC computation the bank-2
digest is read from `FPEC2_BASE + FLASH_CRCDATA`.  In a memory where the
two controllers' digest registers hold the distinct values `0x11111111`
(controller 1) and `0x22222222` (controller 2), the code returns
`0x11111111` for bank 2 — source line 453 reads `FPEC1_BASE`'s digest
register — so the value does not come from controller base 2. -/
theorem crc_bank2_digest_read_from_fpec1 :
    stm32h7_crc crcTestMem true true = some (0x11111111, 0x11111111) ∧
    crcTestMem (FPEC2_BASE + FLASH_CRCDATA) = 0x22222222 := by
  constructor
  · rfl
  · decide

/-- C3 counterexample: the claim states the busy wait never returns
success while any of the spec's four busy indicators is set.  A reading
with only write-buffer-not-empty (bit 1) set and no error bits makes the
loop exit at once — the loop condition only tests BSY and QW — so the
routine returns success while a busy indicator is set. -/
theorem busy_wait_success_with_wbne_set :
    stm32h7_flash_busy_wait FPEC1_BASE [(FLASH_SR_WBNE, false)] =
      .success FLASH_SR_WBNE ∧
    FLASH_SR_WBNE &&& specBusyIndicators ≠ 0 := by
  decide

/-- C3 (amended): the busy-wait routine never returns success while the
busy (bit 0) or queued-write-pending (bit 2) indicator is set in the
observed status value; write-buffer-not-empty and crc-busy are not
consulted by its loop condition. -/
theorem busy_wait_success_no_bsy_qw (regbase : Nat)
    (reads : List (Nat × Bool)) (sr : Nat)
    (h : stm32h7_flash_busy_wait regbase reads = .success sr) :
    sr &&& (FLASH_SR_BSY ||| FLASH_SR_QW) = 0 :=
  (busy_wait_success_iff regbase reads sr h).2

theorem busy_wait_success_no_bsy_qw_witness :
    stm32h7_flash_busy_wait FPEC1_BASE [(0, false)] = .success 0 ∧
    (0 : Nat) &&& (FLASH_SR_BSY ||| FLASH_SR_QW) = 0 :=
  ⟨by decide, busy_wait_success_no_bsy_qw FPEC1_BASE [(0, false)] 0 (by decide)⟩

/-- C6: whenever the busy wait observes a status value with an
error-indicator bit set (after any number of iterations on which it kept
spinning), it returns failure and performs exactly one write: the
observed error bits, masked to `FLASH_SR_ERROR_MASK`, to the bank's
clear-status register `regbase + FLASH_CCR`. -/
theorem busy_wait_error_acks_error_bits (regbase : Nat)
    (pre : List (Nat × Bool)) (sr : Nat) (c : Bool)
    (rest : List (Nat × Bool))
    (hpre : ∀ p ∈ pre, busyContinues p)
    (herr : sr &&& FLASH_SR_ERROR_MASK ≠ 0) :
    stm32h7_flash_busy_wait regbase (pre ++ (sr, c) :: rest) =
      .failure (regbase + FLASH_CCR) (sr &&& FLASH_SR_ERROR_MASK) := by
  induction pre with
  | nil =>
    rw [List.nil_append]
    simp only [stm32h7_flash_busy_wait]
    rw [if_pos (Or.inl herr)]
  | cons hd tl ih =>
    obtain ⟨s, cb⟩ := hd
    obtain ⟨h1, h2, h3⟩ := hpre (s, cb) (List.mem_cons_self _ _)
    dsimp only at h1 h2 h3
    have hng : ¬(s &&& FLASH_SR_ERROR_MASK ≠ 0 ∨ cb = true) := by
      simp [h1, h2]
    rw [List.cons_append]
    simp only [stm32h7_flash_busy_wait]
    rw [if_neg hng, if_pos h3]
    exact ih fun p hp => hpre p (List.mem_cons_of_mem _ hp)

theorem busy_wait_error_acks_error_bits_witness :
    (∀ p ∈ ([] : List (Nat × Bool)), busyContinues p) ∧
    FLASH_SR_WRPERR &&& FLASH_SR_ERROR_MASK ≠ 0 ∧
    stm32h7_flash_busy_wait FPEC1_BASE [(FLASH_SR_WRPERR, false)] =
      .failure (FPEC1_BASE + FLASH_CCR)
        (FLASH_SR_WRPERR &&& FLASH_SR_ERROR_MASK) :=
  ⟨by simp, by decide,
    busy_wait_error_acks_error_bits FPEC1_BASE [] FLASH_SR_WRPERR false []
      (by simp) (by decide)⟩

/-- C7: the debug-control value written by `stm32h7_detach` is exactly
the value `stm32h7_probe` read from `DBGMCU_CR`, whatever the driver
wrote to that register in between (probe itself overwrites it with
`DBGSLEEP_D1 | D1DBGCKEN`). -/
theorem detach_restores_probed_dbgmcu_cr (part_id v : Nat)
    (ps : stm32h7_priv_s) (ws : List (Nat × Nat))
    (h : stm32h7_probe part_id v = some (ps, ws)) :
    stm32h7_detach ps = (DBGMCU_CR, v) := by
  unfold stm32h7_probe at h
  by_cases hp : part_id = ID_STM32H74x ∨ part_id = ID_STM32H7Bx ∨
      part_id = ID_STM32H72x
  · rw [if_pos hp] at h
    obtain ⟨hps, _⟩ := Prod.mk.injEq .. ▸ Option.some.injEq .. ▸ h
    rw [← hps]
    rfl
  · rw [if_neg hp] at h
    exact absurd h (by simp)

theorem detach_restores_probed_dbgmcu_cr_witness :
    stm32h7_probe ID_STM32H74x 0x12345678 =
      some (⟨0x12345678⟩, [(DBGMCU_CR, DBGSLEEP_D1 ||| D1DBGCKEN)]) ∧
    stm32h7_detach ⟨0x12345678⟩ = (DBGMCU_CR, 0x12345678) :=
  ⟨by decide,
    detach_restores_probed_dbgmcu_cr ID_STM32H74x 0x12345678 ⟨0x12345678⟩
      [(DBGMCU_CR, DBGSLEEP_D1 ||| D1DBGCKEN)] (by decide)⟩

/-- C10: for each of the three supported part ids (0x4500 H74x,
0x4800 H7Bx, 0x4830 H72x) attach registers the identical memory map:
seven fixed RAM regions and two 1 MiB flash banks at 0x08000000
(controller base `FPEC1_BASE`) and 0x08100000 (controller base
`FPEC2_BASE`), each with 128 KiB (0x20000) sectors, 2048-byte write
blocks and erased byte 0xff. -/
theorem attach_memory_map_fixed :
    stm32h7_attach ID_STM32H74x true =
      some
        ([(0x00000000, 0x10000), (0x20000000, 0x20000), (0x24000000, 0x80000),
          (0x30000000, 0x20000), (0x30020000, 0x20000), (0x30040000, 0x08000),
          (0x38000000, 0x10000)],
         [⟨0x08000000, 0x100000, 0x20000, 2048, 0xff, FPEC1_BASE⟩,
          ⟨0x08100000, 0x100000, 0x20000, 2048, 0xff, FPEC2_BASE⟩]) ∧
    stm32h7_attach ID_STM32H7Bx true = stm32h7_attach ID_STM32H74x true ∧
    stm32h7_attach ID_STM32H72x true = stm32h7_attach ID_STM32H74x true := by
  refine ⟨?_, rfl, rfl⟩
  decide

/-- C4 counterexample: the claim states the control register is cleared
to 0 regardless of outcome, including when the post-write busy wait
reports an error.  With a successful unlock and a first status reading
showing a write-protection error, the write trace contains the two
program-enable writes and the error acknowledgement to FLASH_CCR, but no
write of 0 to the control register: the function returns before source
line 327. -/
theorem flash_write_error_leaves_cr_uncleared :
    stm32h7_flash_write FPEC1_BASE ALIGN_DWORD true [(FLASH_SR_WRPERR, false)] =
      some (false,
        [(FPEC1_BASE + FLASH_CR, 48), (FPEC1_BASE + FLASH_CR, 50),
         (FPEC1_BASE + FLASH_CCR, FLASH_SR_WRPERR)]) ∧
    (FPEC1_BASE + FLASH_CR, 0) ∉
      [(FPEC1_BASE + FLASH_CR, 48), (FPEC1_BASE + FLASH_CR, 50),
       (FPEC1_BASE + FLASH_CCR, FLASH_SR_WRPERR)] := by
  decide

/-- C4 (amended): with unlock successful, `stm32h7_flash_write` clears
the control register to 0 exactly on the success path: when the
post-write busy wait succeeds, the final register write is
`FLASH_CR := 0`; when the busy wait reports an error, the function
returns failure with only the busy wait's error-acknowledge write after
the two program-enable writes, leaving the write window open. -/
theorem flash_write_cr_writes (regbase psize : Nat)
    (reads : List (Nat × Bool)) :
    (∀ sr, stm32h7_flash_busy_wait regbase reads = .success sr →
      stm32h7_flash_write regbase psize true reads =
        some (true,
          [(regbase + FLASH_CR, psize * FLASH_CR_PSIZE16),
           (regbase + FLASH_CR, psize * FLASH_CR_PSIZE16 ||| FLASH_CR_PG),
           (regbase + FLASH_CR, 0)])) ∧
    (∀ a v, stm32h7_flash_busy_wait regbase reads = .failure a v →
      stm32h7_flash_write regbase psize true reads =
        some (false,
          [(regbase + FLASH_CR, psize * FLASH_CR_PSIZE16),
           (regbase + FLASH_CR, psize * FLASH_CR_PSIZE16 ||| FLASH_CR_PG),
           (a, v)])) := by
  constructor
  · intro sr h
    unfold stm32h7_flash_write
    rw [h]
    rfl
  · intro a v h
    unfold stm32h7_flash_write
    rw [h]
    rfl

theorem flash_write_cr_writes_witness :
    stm32h7_flash_busy_wait FPEC1_BASE [(0, false)] = .success 0 ∧
    stm32h7_flash_write FPEC1_BASE ALIGN_DWORD true [(0, false)] =
      some (true,
        [(FPEC1_BASE + FLASH_CR, ALIGN_DWORD * FLASH_CR_PSIZE16),
         (FPEC1_BASE + FLASH_CR, ALIGN_DWORD * FLASH_CR_PSIZE16 ||| FLASH_CR_PG),
         (FPEC1_BASE + FLASH_CR, 0)]) :=
  ⟨by decide,
    (flash_write_cr_writes FPEC1_BASE ALIGN_DWORD [(0, false)]).1 0 (by decide)⟩

/-- C8: revision resolution is a total function on revision ids; it maps
0x1000 to A, 0x1001 to Z, 0x1003 to Y, 0x2001 to X, 0x2003 to V, and
every id outside the table (0x9999 among them) to the default question
mark. -/
theorem resolve_revision_total_lookup :
    stm32h7_resolve_revision 0x1000 = 'A' ∧
    stm32h7_resolve_revision 0x1001 = 'Z' ∧
    stm32h7_resolve_revision 0x1003 = 'Y' ∧
    stm32h7_resolve_revision 0x2001 = 'X' ∧
    stm32h7_resolve_revision 0x2003 = 'V' ∧
    stm32h7_resolve_revision 0x9999 = '?' ∧
    ∀ r : Nat, r ∉ [0x1000, 0x1001, 0x1003, 0x2001, 0x2003] →
      stm32h7_resolve_revision r = '?' := by
  refine ⟨by decide, by decide, by decide, by decide, by decide, by decide, ?_⟩
  intro r hr
  simp only [List.mem_cons, List.mem_singleton, not_or] at hr
  obtain ⟨h1, h2, h3, h4, h5, -⟩ := hr
  unfold stm32h7_resolve_revision stm32h7xx_revisions
  simp only [List.foldl]
  rw [if_neg fun h => h5 h.symm, if_neg fun h => h4 h.symm,
    if_neg fun h => h3 h.symm, if_neg fun h => h2 h.symm,
    if_neg fun h => h1 h.symm]

theorem resolve_revision_total_lookup_witness :
    (0x4242 : Nat) ∉ [0x1000, 0x1001, 0x1003, 0x2001, 0x2003] ∧
    stm32h7_resolve_revision 0x4242 = '?' :=
  ⟨by decide, resolve_revision_total_lookup.2.2.2.2.2.2 0x4242 (by decide)⟩

/-- C9: when the psize command is given an argument that is none of x8,
x16, x32, x64, it prints the usage message, returns failure, and leaves
every flash bank's write-parallelism setting unchanged. -/
theorem cmd_psize_unrecognized_no_side_effects (arg : String)
    (psizes : List Nat) (h : arg ∉ ["x8", "x16", "x32", "x64"]) :
    stm32h7_cmd_psize 2 arg psizes = (false, psizes, true) := by
  simp only [List.mem_cons, List.mem_singleton, not_or] at h
  obtain ⟨h8, h16, h32, h64, -⟩ := h
  unfold stm32h7_cmd_psize stm32h7_parse_psize
  rw [if_neg (by decide : ¬(2 : Nat) = 1),
    if_neg h8, if_neg h16, if_neg h32, if_neg h64]

theorem cmd_psize_unrecognized_no_side_effects_witness :
    "x128" ∉ ["x8", "x16", "x32", "x64"] ∧
    stm32h7_cmd_psize 2 "x128" [ALIGN_DWORD, ALIGN_DWORD] =
      (false, [ALIGN_DWORD, ALIGN_DWORD], true) :=
  ⟨by decide,
    cmd_psize_unrecognized_no_side_effects "x128" [ALIGN_DWORD, ALIGN_DWORD]
      (by decide)⟩

theorem eraseSectorLoop_all_ok (regbase psize : Nat) (waitOk : Nat → Bool) :
    ∀ n s, (∀ k, k < n → waitOk (s + k) = true) →
    eraseSectorLoop regbase psize waitOk s n =
      (true, (List.range' s n).flatMap (sectorEraseWrites regbase psize)) := by
  intro n
  induction n with
  | zero =>
    intro s _
    rfl
  | succ m ih =>
    intro s h
    have h0 : waitOk s = true := by simpa using h 0 (Nat.succ_pos m)
    have hrest : ∀ k, k < m → waitOk (s + 1 + k) = true := by
      intro k hk
      have := h (k + 1) (Nat.succ_lt_succ hk)
      simpa [Nat.add_assoc, Nat.add_comm 1 k] using this
    unfold eraseSectorLoop
    rw [h0, if_pos rfl, ih (s + 1) hrest, List.range'_succ, List.flatMap_cons]

theorem eraseSectorLoop_first_fail (regbase psize : Nat) (waitOk : Nat → Bool) :
    ∀ n s j, j < n → waitOk (s + j) = false →
    (∀ k, k < j → waitOk (s + k) = true) →
    eraseSectorLoop regbase psize waitOk s n =
      (false, (List.range' s (j + 1)).flatMap (sectorEraseWrites regbase psize)) := by
  intro n
  induction n with
  | zero =>
    intro s j hj
    exact absurd hj (Nat.not_lt_zero j)
  | succ m ih =>
    intro s j hj hfail hok
    cases j with
    | zero =>
      have h0 : waitOk s = false := by simpa using hfail
      unfold eraseSectorLoop
      rw [h0]
      simp [List.range'_succ, List.flatMap_cons]
    | succ i =>
      have h0 : waitOk s = true := by simpa using hok 0 (Nat.succ_pos i)
      have hfail' : waitOk (s + 1 + i) = false := by
        simpa [Nat.add_assoc, Nat.add_comm 1 i] using hfail
      have hok' : ∀ k, k < i → waitOk (s + 1 + k) = true := by
        intro k hk
        have := hok (k + 1) (Nat.succ_lt_succ hk)
        simpa [Nat.add_assoc, Nat.add_comm 1 k] using this
      unfold eraseSectorLoop
      rw [h0, if_pos rfl, ih (s + 1) i (Nat.lt_of_succ_lt_succ hj) hfail' hok']
      simp [List.range'_succ, List.flatMap_cons]

/-- C5: with unlock successful and `len ≥ 1`, erase touches exactly the
sectors `floor(a/sectorsize) .. floor((a+len-1)/sectorsize)` (where `a`
is the address masked to the bank window), ascending: if every sector's
busy wait succeeds, the trace is the FLASH_ACR write followed by the
arm-and-trigger write pair of each sector of that range in order, and
the result is success; the first sector `k` whose busy wait fails stops
the loop with the trace ending at `k`'s write pair and the result a
failure, the remaining sectors unattempted. -/
theorem flash_erase_sector_range (regbase psize addr len : Nat)
    (waitOk : Nat → Bool) (a s0 e0 : Nat)
    (ha : a = addr &&& (NUM_SECTOR_PER_BANK * FLASH_SECTOR_SIZE - 1))
    (hs : s0 = a / FLASH_SECTOR_SIZE)
    (he : e0 = (a + len - 1) / FLASH_SECTOR_SIZE)
    (hlen : 0 < len) :
    ((∀ s, s0 ≤ s → s ≤ e0 → waitOk s = true) →
      stm32h7_flash_erase regbase psize true waitOk addr len =
        (true, (regbase + FLASH_ACR, 0) ::
          (List.range' s0 (e0 + 1 - s0)).flatMap
            (sectorEraseWrites regbase psize))) ∧
    (∀ k, s0 ≤ k → k ≤ e0 → waitOk k = false →
      (∀ s, s0 ≤ s → s < k → waitOk s = true) →
      stm32h7_flash_erase regbase psize true waitOk addr len =
        (false, (regbase + FLASH_ACR, 0) ::
          (List.range' s0 (k + 1 - s0)).flatMap
            (sectorEraseWrites regbase psize))) := by
  have hse : s0 ≤ e0 := by
    rw [hs, he]
    exact Nat.div_le_div_right (by omega)
  have herase : stm32h7_flash_erase regbase psize true waitOk addr len =
      ((eraseSectorLoop regbase psize waitOk s0 (e0 + 1 - s0)).1,
       (regbase + FLASH_ACR, 0) ::
         (eraseSectorLoop regbase psize waitOk s0 (e0 + 1 - s0)).2) := by
    simp only [stm32h7_flash_erase, Bool.not_true, if_false]
    rw [← ha, ← hs, ← he]
    rfl
  constructor
  · intro h
    rw [herase, eraseSectorLoop_all_ok regbase psize waitOk (e0 + 1 - s0) s0
      (fun k hk => h (s0 + k) (Nat.le_add_right s0 k) (by omega))]
  · intro k hk1 hk2 hkf hpref
    have hjn : k - s0 < e0 + 1 - s0 := by omega
    have hjf : waitOk (s0 + (k - s0)) = false := by
      rw [Nat.add_sub_cancel' hk1]
      exact hkf
    have hjok : ∀ i, i < k - s0 → waitOk (s0 + i) = true := fun i hi =>
      hpref (s0 + i) (Nat.le_add_right s0 i) (by omega)
    have hcount : k - s0 + 1 = k + 1 - s0 := by omega
    rw [herase, eraseSectorLoop_first_fail regbase psize waitOk
      (e0 + 1 - s0) s0 (k - s0) hjn hjf hjok, hcount]

theorem flash_erase_sector_range_witness :
    (0x20000 : Nat) = 0x08020000 &&& (NUM_SECTOR_PER_BANK * FLASH_SECTOR_SIZE - 1) ∧
    (1 : Nat) = 0x20000 / FLASH_SECTOR_SIZE ∧
    (3 : Nat) = (0x20000 + 0x40001 - 1) / FLASH_SECTOR_SIZE ∧
    (0 : Nat) < 0x40001 ∧
    stm32h7_flash_erase FPEC1_BASE ALIGN_DWORD true (fun _ => true)
        0x08020000 0x40001 =
      (true, (FPEC1_BASE + FLASH_ACR, 0) ::
        (List.range' 1 (3 + 1 - 1)).flatMap
          (sectorEraseWrites FPEC1_BASE ALIGN_DWORD)) :=
  ⟨by decide, by decide, by decide, by decide,
    (flash_erase_sector_range FPEC1_BASE ALIGN_DWORD 0x08020000 0x40001
      (fun _ => true) 0x20000 1 3 (by decide) (by decide) (by decide)
      (by decide)).1 (fun s _ _ => rfl)⟩

end Stm32h7
